/-
Verification of the resqdb scenario-identity and result-normalization
pipeline.

The Python modules models.py, scenarios.py, export.py and views.py are
shallowly embedded below.  Relational tables become lists of row
structures inside a `Store`; SQL NULL becomes `Option`; SQLAlchemy
sessions become explicit state passing, where closing a session without
committing returns the persisted store unchanged (rollback) and a commit
installs the pending state after the constraint checks that the flush
would run.  Constraint violations (NOT NULL, foreign keys, unique
indexes) surface as `DbError`, which the application code sees wrapped as
`AppError.integrityError`, mirroring sqlalchemy.exc.IntegrityError.
Python float values are modelled as rationals; a pandas series with
missing entries is a `List (Option Rat)` whose `none` entries are the
NaN/missing positions dropped by `Series.dropna`.

Races on `get_or_create` are modelled by giving the function two store
arguments: the store its advisory SELECT reads and the store its INSERT
runs against; a concurrent insert between the two steps is exactly the
case where the second store holds a row the first did not.  Sequential
calls pass the same store twice.
-/
import Mathlib

namespace Resq

/-! ## Data model (models.py) -/

/-- Row of table `weather` (models.Weather): id, unique name, description. -/
structure WeatherRow where
  id : Nat
  name : Option String
  description : Option String
deriving DecidableEq, Repr

/-- Row of table `climate` (models.Climate): id, unique name, description. -/
structure ClimateRow where
  id : Nat
  name : Option String
  description : Option String
deriving DecidableEq, Repr

/-- Row of table `period` (models.Period). -/
structure PeriodRow where
  id : Nat
  name : Option String
  reference_year : Option Int
  period_start : Option Int
  period_end : Option Int
  description : Option String
deriving DecidableEq, Repr

/-- Row of table `sensitivity` (models.Sensitivity). -/
structure SensitivityRow where
  id : Nat
  node : Option String
  attr : Option String
  value : Option Rat
deriving DecidableEq, Repr

/-- Row of table `cluster` (models.Cluster); the PostGIS polygon is kept
as its WKT text, which is all the pipeline ever stores in it. -/
structure ClusterRow where
  id : Nat
  name : Option String
  geometry : Option String
deriving DecidableEq, Repr

/-- Row of table `scenario` (models.Scenario).  `name`, `period_id`,
`weather_id` and `climate_id` are NOT NULL columns; nullability is part
of the value so that the insert-time constraint checks can be stated. -/
structure ScenarioRow where
  id : Nat
  name : Option String
  period_id : Option Nat
  weather_id : Option Nat
  climate_id : Option Nat
  sensitivity_id : Option Nat
deriving DecidableEq, Repr

/-- Row of table `scalar` (models.Scalar).  The code always populates
`from_node`, `attribute` and `value`, so those are kept non-optional;
`scenario_id` is NOT NULL with ondelete=CASCADE, `cluster_id` nullable
with ondelete=SET NULL. -/
structure ScalarRow where
  id : Nat
  scenario_id : Nat
  is_exogenous : Bool
  from_node : String
  to_node : Option String
  attr : String
  value : Rat
  cluster_id : Option Nat
deriving DecidableEq, Repr

/-- Row of table `sequence` (models.Sequence), same key shape as Scalar
plus the stored series and its precomputed total. -/
structure SequenceRow where
  id : Nat
  scenario_id : Nat
  is_exogenous : Bool
  from_node : String
  to_node : Option String
  attr : String
  timeseries : List Rat
  total_energy : Rat
  cluster_id : Option Nat
deriving DecidableEq, Repr

/-- The persisted relational store: one list per table, plus the serial
counters that hand out surrogate primary keys. -/
structure Store where
  weathers : List WeatherRow
  climates : List ClimateRow
  periods : List PeriodRow
  sensitivities : List SensitivityRow
  scenarios : List ScenarioRow
  clusters : List ClusterRow
  scalars : List ScalarRow
  sequences : List SequenceRow
  nextScenarioId : Nat
  nextScalarId : Nat
  nextSequenceId : Nat
deriving DecidableEq, Repr

/-- Database-level integrity violations; SQLAlchemy surfaces each of
these to the application as IntegrityError. -/
inductive DbError where
  | notNullViolation (table column : String)
  | foreignKeyViolation (table column : String)
  | uniqueViolation (indexName : String)
deriving DecidableEq, Repr

/-- Errors the Python functions raise: KeyError (missing reference or
cluster), ValueError (missing scenario in export.store_scenario_results),
IntegrityError wrapping a database violation, and the ORM error raised
when session.delete is handed None. -/
inductive AppError where
  | keyError (msg : String)
  | valueError (msg : String)
  | integrityError (e : DbError)
  | ormError (msg : String)
deriving DecidableEq, Repr

/-! ## Scenario creation (models.get_or_create, scenarios.create_scenario) -/

/-- `select(Period.id).where(Period.name == period)` with
`.scalar_one_or_none()`; `name` carries a unique constraint, so the first
match is the only match on a constraint-satisfying store. -/
def findPeriodId (s : Store) (period : String) : Option Nat :=
  (s.periods.find? (fun p => decide (p.name = some period))).map (fun p => p.id)

/-- `select(Climate.id).where(Climate.name == climate)`. -/
def findClimateId (s : Store) (climate : String) : Option Nat :=
  (s.climates.find? (fun c => decide (c.name = some climate))).map (fun c => c.id)

/-- `select(Weather.id).where(Weather.name == weather)`. -/
def findWeatherId (s : Store) (weather : String) : Option Nat :=
  (s.weathers.find? (fun w => decide (w.name = some weather))).map (fun w => w.id)

/-- Whether an optional foreign-key value references a row id present in
the referenced table (NULL references nothing and is always fine). -/
def fkOk (ids : List Nat) : Option Nat → Bool
  | none => true
  | some i => ids.contains i

/-- The shared (period_id, weather_id, climate_id) part of the two
partial unique indexes `scenario_without_sensitivity` and
`scenario_with_sensitivity` on models.Scenario. -/
def scenarioKeyClash (r row : ScenarioRow) : Prop :=
  r.period_id = row.period_id ∧ r.weather_id = row.weather_id ∧ r.climate_id = row.climate_id

instance (r row : ScenarioRow) : Decidable (scenarioKeyClash r row) := by
  unfold scenarioKeyClash; infer_instance

/-- The first violation an INSERT into `scenario` hits, in the order the
database checks them: NOT NULL columns, then foreign keys, then the
unique constraints (the unique `name` column and the two partial unique
indexes declared in models.Scenario.__table_args__).  `none` means the
insert succeeds. -/
def scenarioInsertError (s : Store) (row : ScenarioRow) : Option DbError :=
  if row.name = none then some (.notNullViolation "scenario" "name")
  else if row.period_id = none then some (.notNullViolation "scenario" "period_id")
  else if row.weather_id = none then some (.notNullViolation "scenario" "weather_id")
  else if row.climate_id = none then some (.notNullViolation "scenario" "climate_id")
  else if fkOk (s.periods.map (fun p => p.id)) row.period_id = false then
    some (.foreignKeyViolation "scenario" "period_id")
  else if fkOk (s.weathers.map (fun w => w.id)) row.weather_id = false then
    some (.foreignKeyViolation "scenario" "weather_id")
  else if fkOk (s.climates.map (fun c => c.id)) row.climate_id = false then
    some (.foreignKeyViolation "scenario" "climate_id")
  else if fkOk (s.sensitivities.map (fun x => x.id)) row.sensitivity_id = false then
    some (.foreignKeyViolation "scenario" "sensitivity_id")
  else if s.scenarios.any (fun r => decide (r.name = row.name)) then
    some (.uniqueViolation "scenario_name_key")
  else if s.scenarios.any (fun r =>
      decide (row.sensitivity_id = none ∧ r.sensitivity_id = none ∧ scenarioKeyClash r row)) then
    some (.uniqueViolation "scenario_without_sensitivity")
  else if s.scenarios.any (fun r =>
      decide (row.sensitivity_id ≠ none ∧ r.sensitivity_id = row.sensitivity_id ∧ scenarioKeyClash r row)) then
    some (.uniqueViolation "scenario_with_sensitivity")
  else none

/-- `session.query(Scenario).filter_by(period_id=..., weather_id=...,
climate_id=..., sensitivity_id=...).first()` — the advisory read of
models.get_or_create at its only call site; a None kwarg filters on
IS NULL. -/
def filterByScenario (s : Store) (period_id : Option Nat) (weather_id climate_id : Nat)
    (sensitivity_id : Option Nat) : Option ScenarioRow :=
  s.scenarios.find? (fun r => decide (r.period_id = period_id ∧
    r.weather_id = some weather_id ∧ r.climate_id = some climate_id ∧
    r.sensitivity_id = sensitivity_id))

/-- models.get_or_create as instantiated by scenarios.create_scenario:
query first; on a hit return the existing instance with created=false and
write nothing; on a miss construct `Scenario(period_id=..., weather_id=...,
climate_id=..., sensitivity_id=...)` — note the constructor receives no
`name`, so that NOT NULL column stays NULL — add it and commit.  The
commit's constraint checks can fail; the source wraps nothing in
try/except, so the resulting IntegrityError propagates.  `readStore` is
the store the advisory query sees, `writeStore` the store the insert runs
against; they differ exactly when a concurrent writer committed in
between. -/
def get_or_create (readStore writeStore : Store) (period_id : Option Nat)
    (weather_id climate_id : Nat) (sensitivity_id : Option Nat) :
    Except DbError (Store × Nat × Bool) :=
  match filterByScenario readStore period_id weather_id climate_id sensitivity_id with
  | some inst => .ok (writeStore, inst.id, false)
  | none =>
    let row : ScenarioRow :=
      { id := writeStore.nextScenarioId, name := none, period_id := period_id,
        weather_id := some weather_id, climate_id := some climate_id,
        sensitivity_id := sensitivity_id }
    match scenarioInsertError writeStore row with
    | some e => .error e
    | none => .ok ({ writeStore with
        scenarios := writeStore.scenarios ++ [row],
        nextScenarioId := writeStore.nextScenarioId + 1 }, row.id, true)

/-- scenarios.create_scenario: resolve the period, climate and weather
names to reference-table ids, raise KeyError when climate or weather is
missing (the period lookup result is passed through unchecked, even when
it is None), then delegate to models.get_or_create.  A database
constraint violation from the commit inside get_or_create reaches the
caller as IntegrityError. -/
def create_scenario (readStore writeStore : Store) (period climate weather : String)
    (sensitivity_id : Option Nat) : Except AppError (Store × Nat × Bool) :=
  let period_id := findPeriodId readStore period
  let climate_id := findClimateId readStore climate
  let weather_id := findWeatherId readStore weather
  match climate_id with
  | none => .error (.keyError ("Climate \x27" ++ climate ++ "\x27 not found in database."))
  | some cid =>
    match weather_id with
    | none => .error (.keyError ("Weather \x27" ++ weather ++ "\x27 not found in database."))
    | some wid =>
      match get_or_create readStore writeStore period_id wid cid sensitivity_id with
      | .error e => .error (.integrityError e)
      | .ok r => .ok r

/-! ## Scenario deletion (scenarios.delete_scenario, delete_all_scenarios) -/

/-- The state a flushed `DELETE FROM scenario WHERE id = scenario_id`
produces: the scenario row goes away and the database cascade rule
(ondelete=CASCADE on Scalar.scenario_id and Sequence.scenario_id) removes
every referencing scalar and sequence row. -/
def cascadeDeleteScenario (s : Store) (scenario_id : Nat) : Store :=
  { s with
    scenarios := s.scenarios.filter (fun r => decide (r.id ≠ scenario_id)),
    scalars := s.scalars.filter (fun r => decide (r.scenario_id ≠ scenario_id)),
    sequences := s.sequences.filter (fun r => decide (r.scenario_id ≠ scenario_id)) }

/-- An open SQLAlchemy session: the durably persisted store, and the
pending state the session's uncommitted work has produced so far. -/
structure DbSession where
  persisted : Store
  pending : Store
deriving DecidableEq, Repr

/-- `Session(ENGINE)`: a fresh session sees the persisted store. -/
def openSession (s : Store) : DbSession := { persisted := s, pending := s }

/-- `session.delete(scenario)` (flushed): pending state only. -/
def DbSession.deleteScenarioRow (sess : DbSession) (scenario_id : Nat) : DbSession :=
  { sess with pending := cascadeDeleteScenario sess.pending scenario_id }

/-- `session.query(Scenario).delete()` (flushed): every scenario row goes,
and the cascade removes every scalar/sequence row referencing any of
them; pending state only. -/
def DbSession.deleteAllScenarioRows (sess : DbSession) : DbSession :=
  { sess with pending :=
    { sess.pending with
      scenarios := [],
      scalars := sess.pending.scalars.filter
        (fun r => decide (¬ ∃ sc ∈ sess.pending.scenarios, sc.id = r.scenario_id)),
      sequences := sess.pending.sequences.filter
        (fun r => decide (¬ ∃ sc ∈ sess.pending.scenarios, sc.id = r.scenario_id)) } }

/-- `session.commit()`: the pending work becomes the persisted store. -/
def DbSession.commit (sess : DbSession) : DbSession :=
  { sess with persisted := sess.pending }

/-- Leaving the `with Session(...)` block: the session closes, anything
not committed is rolled back, and the persisted store is what the
database keeps. -/
def DbSession.close (sess : DbSession) : Store :=
  sess.persisted

/-- scenarios.delete_scenario: `session.get(Scenario, scenario_id)` then
`session.delete(...)` inside a `with Session(...)` block that never calls
`session.commit()` — so closing the session rolls the delete back.  When
the id is absent, session.get returns None and session.delete(None)
raises sqlalchemy.orm.exc.UnmappedInstanceError. -/
def delete_scenario (s : Store) (scenario_id : Nat) : Except AppError Store :=
  let sess := openSession s
  match sess.pending.scenarios.find? (fun r => decide (r.id = scenario_id)) with
  | none => .error (.ormError "Class builtins.NoneType is not mapped")
  | some row => .ok (DbSession.close (sess.deleteScenarioRow row.id))

/-- scenarios.delete_all_scenarios: bulk delete followed by an explicit
`session.commit()`, so this one does persist. -/
def delete_all_scenarios (s : Store) : Store :=
  DbSession.close (DbSession.commit (DbSession.deleteAllScenarioRows (openSession s)))

/-! ## Cluster lookup (scenarios.get_cluster_for_component) and result
storage (export.store_scenario_results) -/

/-- settings.COMPONENT_CLUSTERS: the component-name → cluster-name
mapping built from config/clusters.json. -/
abbrev ClusterConfig := List (String × String)

/-- The message of the KeyError that get_cluster_for_component raises
(\x27 is the ASCII apostrophe the f-string puts around both names). -/
def clusterNotFoundMsg (component cluster_name : String) : String :=
  "Cluster \x27" ++ cluster_name ++ "\x27 for component \x27" ++ component ++
    "\x27 not found in database."

/-- scenarios.get_cluster_for_component: consult the configuration
mapping; an unmapped component yields None without touching the store; a
mapped component resolves through the persisted `cluster` table, raising
KeyError when the mapped name has no row there. -/
def get_cluster_for_component (config : ClusterConfig) (s : Store) (component : String) :
    Except AppError (Option Nat) :=
  match config.lookup component with
  | none => .ok none
  | some cluster_name =>
    match s.clusters.find? (fun c => decide (c.name = some cluster_name)) with
    | none => .error (.keyError (clusterNotFoundMsg component cluster_name))
    | some c => .ok (some c.id)

/-- A Python value found in a result bundle's scalars mapping: a float or
int, a bool, or anything else (which the store loop skips). -/
inductive PyValue where
  | num (q : Rat)
  | boolean (b : Bool)
  | other
deriving DecidableEq, Repr

/-- `float(value)` applied after `isinstance(value, (float, int, bool))`:
numbers pass through, booleans coerce to 1 or 0, anything else was
already skipped. -/
def PyValue.toFloat? : PyValue → Option Rat
  | .num q => some q
  | .boolean b => some (if b then 1 else 0)
  | .other => none

/-- One ((from_node, to_node), result) item of the input_data/output_data
dicts handed to store_scenario_results: the node labels (the destination
node may be absent), the scalars mapping and the sequences mapping. -/
structure ResultEntry where
  from_node : String
  to_node : Option String
  scalars : List (String × PyValue)
  sequences : List (String × List (Option Rat))
deriving DecidableEq, Repr

/-- `Series.dropna().tolist()`: the series with its missing entries
removed. -/
def dropna (series : List (Option Rat)) : List Rat :=
  series.filterMap id

/-- The cluster-attribution steps of store_scenario_results for one
entry: start from None, look up the source label if it is mapped, then
look up the destination label if it is mapped — the destination's result
overwrites the source's.  Either lookup can raise the cluster-not-found
KeyError, which propagates. -/
def resolveClusterId (config : ClusterConfig) (s : Store) (from_node : String)
    (to_node : Option String) : Except AppError (Option Nat) :=
  let afterFrom : Except AppError (Option Nat) :=
    if (config.lookup from_node).isSome then get_cluster_for_component config s from_node
    else .ok none
  match afterFrom with
  | .error e => .error e
  | .ok cluster_id =>
    match to_node with
    | none => .ok cluster_id
    | some to_label =>
      if (config.lookup to_label).isSome then get_cluster_for_component config s to_label
      else .ok cluster_id

/-- A models.Scalar value as constructed inside store_scenario_results,
before the flush assigns its serial primary key. -/
structure ScalarData where
  scenario_id : Nat
  is_exogenous : Bool
  from_node : String
  to_node : Option String
  attr : String
  value : Rat
  cluster_id : Option Nat
deriving DecidableEq, Repr

/-- A models.Sequence value as constructed inside store_scenario_results,
before the flush assigns its serial primary key. -/
structure SequenceData where
  scenario_id : Nat
  is_exogenous : Bool
  from_node : String
  to_node : Option String
  attr : String
  timeseries : List Rat
  total_energy : Rat
  cluster_id : Option Nat
deriving DecidableEq, Repr

/-- The scalar rows one entry contributes: non-numeric, non-boolean
values are skipped silently, everything else is coerced to float. -/
def scalarDataForEntry (scenario_id : Nat) (is_exogenous : Bool) (cluster_id : Option Nat)
    (e : ResultEntry) : List ScalarData :=
  e.scalars.filterMap (fun p =>
    match PyValue.toFloat? p.2 with
    | none => none
    | some v => some
      { scenario_id := scenario_id, is_exogenous := is_exogenous,
        from_node := e.from_node, to_node := e.to_node, attr := p.1,
        value := v, cluster_id := cluster_id })

/-- The sequence rows one entry contributes: each series is cleaned with
dropna, stored as a list, and its total_energy is the cleaned sum. -/
def sequenceDataForEntry (scenario_id : Nat) (is_exogenous : Bool) (cluster_id : Option Nat)
    (e : ResultEntry) : List SequenceData :=
  e.sequences.map (fun p =>
    let cleaned := dropna p.2
    { scenario_id := scenario_id, is_exogenous := is_exogenous,
      from_node := e.from_node, to_node := e.to_node, attr := p.1,
      timeseries := cleaned, total_energy := cleaned.sum, cluster_id := cluster_id })

/-- The per-entry loop of store_scenario_results: for each (is_exogenous,
entry) pair in order, resolve the cluster attribution (propagating its
KeyError) and collect the scalar and sequence values added to the
session. -/
def collectEntryData (config : ClusterConfig) (s : Store) (scenario_id : Nat) :
    List (Bool × ResultEntry) → Except AppError (List ScalarData × List SequenceData)
  | [] => .ok ([], [])
  | (is_exogenous, e) :: rest =>
    match resolveClusterId config s e.from_node e.to_node with
    | .error err => .error err
    | .ok cluster_id =>
      match collectEntryData config s scenario_id rest with
      | .error err => .error err
      | .ok (scs, seqs) =>
        .ok (scalarDataForEntry scenario_id is_exogenous cluster_id e ++ scs,
             sequenceDataForEntry scenario_id is_exogenous cluster_id e ++ seqs)

/-- The first violation an INSERT into `scalar` hits.  models.Scalar
declares foreign keys on scenario_id and cluster_id and no unique
constraint of any kind. -/
def scalarInsertError (s : Store) (d : ScalarData) : Option DbError :=
  if s.scenarios.any (fun r => decide (r.id = d.scenario_id)) = false then
    some (.foreignKeyViolation "scalar" "scenario_id")
  else if fkOk (s.clusters.map (fun c => c.id)) d.cluster_id = false then
    some (.foreignKeyViolation "scalar" "cluster_id")
  else none

/-- Flush one scalar INSERT into the store. -/
def insertScalar (s : Store) (d : ScalarData) : Except DbError Store :=
  match scalarInsertError s d with
  | some e => .error e
  | none =>
    let row : ScalarRow :=
      { id := s.nextScalarId, scenario_id := d.scenario_id,
        is_exogenous := d.is_exogenous, from_node := d.from_node, to_node := d.to_node,
        attr := d.attr, value := d.value, cluster_id := d.cluster_id }
    .ok { s with scalars := s.scalars ++ [row], nextScalarId := s.nextScalarId + 1 }

/-- Collision of a persisted sequence row with an insert candidate under
the unique index `sequence_unique` on (scenario_id, from_node, to_node,
attribute): a plain PostgreSQL unique index treats NULLs as distinct, so
a NULL to_node never collides with anything — the two rows clash only
when every indexed column is non-NULL-equal, which for the nullable
to_node means both sides carry the same non-NULL label. -/
def seqKeyClash (r : SequenceRow) (d : SequenceData) : Prop :=
  r.scenario_id = d.scenario_id ∧ r.from_node = d.from_node ∧ r.attr = d.attr ∧
  r.to_node ≠ none ∧ r.to_node = d.to_node

instance (r : SequenceRow) (d : SequenceData) : Decidable (seqKeyClash r d) := by
  unfold seqKeyClash; infer_instance

/-- The same NULLS-DISTINCT collision between two persisted rows. -/
def seqRowClash (r1 r2 : SequenceRow) : Prop :=
  r1.scenario_id = r2.scenario_id ∧ r1.from_node = r2.from_node ∧ r1.attr = r2.attr ∧
  r1.to_node ≠ none ∧ r1.to_node = r2.to_node

instance (r1 r2 : SequenceRow) : Decidable (seqRowClash r1 r2) := by
  unfold seqRowClash; infer_instance

/-- The first violation an INSERT into `sequence` hits: the unique index
`sequence_unique` on (scenario_id, from_node, to_node, attribute) with
PostgreSQL NULLS DISTINCT semantics, then the two foreign keys. -/
def sequenceInsertError (s : Store) (d : SequenceData) : Option DbError :=
  if s.sequences.any (fun r => decide (seqKeyClash r d)) then
    some (.uniqueViolation "sequence_unique")
  else if s.scenarios.any (fun r => decide (r.id = d.scenario_id)) = false then
    some (.foreignKeyViolation "sequence" "scenario_id")
  else if fkOk (s.clusters.map (fun c => c.id)) d.cluster_id = false then
    some (.foreignKeyViolation "sequence" "cluster_id")
  else none

/-- Flush one sequence INSERT into the store. -/
def insertSequence (s : Store) (d : SequenceData) : Except DbError Store :=
  match sequenceInsertError s d with
  | some e => .error e
  | none =>
    let row : SequenceRow :=
      { id := s.nextSequenceId, scenario_id := d.scenario_id,
        is_exogenous := d.is_exogenous, from_node := d.from_node, to_node := d.to_node,
        attr := d.attr, timeseries := d.timeseries, total_energy := d.total_energy,
        cluster_id := d.cluster_id }
    .ok { s with sequences := s.sequences ++ [row], nextSequenceId := s.nextSequenceId + 1 }

/-- Flush every scalar INSERT of the batch in order; the first violation
aborts the commit. -/
def insertScalars : Store → List ScalarData → Except DbError Store
  | s, [] => .ok s
  | s, d :: rest =>
    match insertScalar s d with
    | .error e => .error e
    | .ok s2 => insertScalars s2 rest

/-- Flush every sequence INSERT of the batch in order; the first
violation aborts the commit. -/
def insertSequences : Store → List SequenceData → Except DbError Store
  | s, [] => .ok s
  | s, d :: rest =>
    match insertSequence s d with
    | .error e => .error e
    | .ok s2 => insertSequences s2 rest

/-- The message of the ValueError store_scenario_results raises for a
missing scenario. -/
def scenarioNotFoundMsg (scenario_id : Nat) : String :=
  "Scenario #" ++ toString scenario_id ++ " not found in database."

/-- export.store_scenario_results: check the scenario id with
session.get_one and raise ValueError when it is absent, before anything
is added to the session; then walk (True, input_data), (False,
output_data), collecting scalar and sequence rows per entry; finally
commit the whole batch in one transaction — a constraint violation at
the flush raises IntegrityError and nothing of the batch persists (an
error result leaves the caller with the original store). -/
def store_scenario_results (config : ClusterConfig) (s : Store) (scenario_id : Nat)
    (input_data output_data : List ResultEntry) : Except AppError Store :=
  if s.scenarios.any (fun r => decide (r.id = scenario_id)) = false then
    .error (.valueError (scenarioNotFoundMsg scenario_id))
  else
    let entries := input_data.map (fun e => (true, e)) ++ output_data.map (fun e => (false, e))
    match collectEntryData config s scenario_id entries with
    | .error e => .error e
    | .ok (scalarBatch, sequenceBatch) =>
      match insertScalars s scalarBatch with
      | .error e => .error (.integrityError e)
      | .ok s2 =>
        match insertSequences s2 sequenceBatch with
        | .error e => .error (.integrityError e)
        | .ok s3 => .ok s3

/-! ## Materialized views (views.py) -/

/-- The materialized views the database currently holds: view name paired
with the defining query the view was created from. -/
abbrev MatViews := List (String × String)

/-- What a view lookup observes: does a view of this name exist, and with
which defining query. -/
def lookupView (vs : MatViews) (view_name : String) : Option String :=
  (vs.find? (fun p => decide (p.1 = view_name))).map (fun p => p.2)

/-- `DROP MATERIALIZED VIEW [IF EXISTS] name`: dropping an absent view is
an error unless IF EXISTS is given. -/
def dropMaterializedView (if_exists : Bool) (vs : MatViews) (view_name : String) :
    Except String MatViews :=
  if vs.any (fun p => decide (p.1 = view_name)) then
    .ok (vs.filter (fun p => decide (p.1 ≠ view_name)))
  else if if_exists then .ok vs
  else .error ("materialized view \x22" ++ view_name ++ "\x22 does not exist")

/-- `CREATE MATERIALIZED VIEW [IF NOT EXISTS] name AS (query)`: creating
over an existing view is an error unless IF NOT EXISTS is given, in which
case the existing view is left untouched. -/
def createMaterializedView (if_not_exists : Bool) (vs : MatViews) (view_name query : String) :
    Except String MatViews :=
  if vs.any (fun p => decide (p.1 = view_name)) then
    if if_not_exists then .ok vs
    else .error ("materialized view \x22" ++ view_name ++ "\x22 already exists")
  else .ok (vs ++ [(view_name, query)])

/-- views.create_view: when recreate is set, first `DROP MATERIALIZED
VIEW IF EXISTS`, then always `CREATE MATERIALIZED VIEW IF NOT EXISTS`. -/
def create_view (vs : MatViews) (view_name query : String) (recreate : Bool) :
    Except String MatViews :=
  match (if recreate then dropMaterializedView true vs view_name else .ok vs) with
  | .error e => .error e
  | .ok vs1 => createMaterializedView true vs1 view_name query

/-- views.create_all_views: apply create_view to every (stem, query)
pair read from the views directory, in order. -/
def create_all_views : MatViews → List (String × String) → Bool → Except String MatViews
  | vs, [], _ => .ok vs
  | vs, (view_name, query) :: rest, recreate =>
    match create_view vs view_name query recreate with
    | .error e => .error e
    | .ok vs1 => create_all_views vs1 rest recreate

/-- views.delete_view: `DROP MATERIALIZED VIEW IF EXISTS`. -/
def delete_view (vs : MatViews) (view_name : String) : Except String MatViews :=
  dropMaterializedView true vs view_name

/-! ## Derived notions the statements below use -/

deriving instance DecidableEq for Except

/-- The invariant the unique index `sequence_unique` maintains: no two
persisted sequence rows collide on the (scenario_id, from_node, to_node,
attribute) key — where, NULLs being distinct under the index, only keys
with a non-NULL to_node can collide at all. -/
def SeqUnique (s : Store) : Prop :=
  s.sequences.Pairwise (fun r1 r2 => ¬ seqRowClash r1 r2)

/-- The sum of exactly the non-missing entries of a raw series. -/
def sumNonMissing : List (Option Rat) → Rat
  | [] => 0
  | none :: rest => sumNonMissing rest
  | some q :: rest => q + sumNonMissing rest

/-- A persisted sequence row agrees field by field with the value the
normalizer constructed for it (the flush only adds the serial id). -/
def seqRowMatches (row : SequenceRow) (d : SequenceData) : Prop :=
  row.scenario_id = d.scenario_id ∧ row.is_exogenous = d.is_exogenous ∧
  row.from_node = d.from_node ∧ row.to_node = d.to_node ∧ row.attr = d.attr ∧
  row.timeseries = d.timeseries ∧ row.total_energy = d.total_energy ∧
  row.cluster_id = d.cluster_id

/-- A persisted scalar row agrees field by field with the value the
normalizer constructed for it. -/
def scalarRowMatches (row : ScalarRow) (d : ScalarData) : Prop :=
  row.scenario_id = d.scenario_id ∧ row.is_exogenous = d.is_exogenous ∧
  row.from_node = d.from_node ∧ row.to_node = d.to_node ∧ row.attr = d.attr ∧
  row.value = d.value ∧ row.cluster_id = d.cluster_id

/-- When the call succeeds, every scalar and sequence row it added (|row
not already persisted) carries cluster reference `c`. -/
def newRowsCarry (result : Except AppError Store) (old : Store) (c : Option Nat) : Prop :=
  ∀ s2, result = .ok s2 →
    (∀ row ∈ s2.scalars, row ∈ old.scalars ∨ row.cluster_id = c) ∧
    (∀ row ∈ s2.sequences, row ∈ old.sequences ∨ row.cluster_id = c)

/-- When the call succeeds, every sequence row it added stems from one
series of the entry, stores that series with the missing entries removed,
and stores as total the sum of exactly the non-missing entries — so the
stored total and stored series agree. -/
def seqRowsConsistent (result : Except AppError Store) (old : Store) (entry : ResultEntry) : Prop :=
  ∀ s2, result = .ok s2 → ∀ row ∈ s2.sequences, row ∈ old.sequences ∨
    ∃ p ∈ entry.sequences, row.attr = p.1 ∧ row.timeseries = dropna p.2 ∧
      row.total_energy = sumNonMissing p.2 ∧ row.total_energy = row.timeseries.sum

/-- Whether a create_scenario outcome is the application-level KeyError
raised by the reference lookups. -/
def resultIsKeyError : Except AppError (Store × Nat × Bool) → Bool
  | .error (.keyError _) => true
  | _ => false

/-- Every store a successful NormalizeAndStore call can produce satisfies
the sequence-key uniqueness invariant. -/
def resultSeqUnique (result : Except AppError Store) : Prop :=
  ∀ s2, result = .ok s2 → SeqUnique s2

/-- What one `create_view name query recreate=True` call leaves behind:
any view of that name is gone and the (name, query) pair is present. -/
def createViewPure (vs : MatViews) (view_name query : String) : MatViews :=
  (vs.filter (fun p => decide (p.1 ≠ view_name))) ++ [(view_name, query)]

/-- `create_all_views` with recreate=True, as a total state function. -/
def applyViewsPure : MatViews → List (String × String) → MatViews
  | vs, [] => vs
  | vs, (view_name, query) :: rest => applyViewsPure (createViewPure vs view_name query) rest

/-- The defining query the view definitions themselves assign to a name:
the last definition of that name wins. -/
def resolveViews : List (String × String) → String → Option String
  | [], _ => none
  | (m, q) :: rest, n =>
    match resolveViews rest n with
    | some q2 => some q2
    | none => if m = n then some q else none

/-! ## Concrete fixtures -/

/-- A small constraint-satisfying store as models.setup_db seeds it: one
weather, one climate, one period, two clusters, no scenarios yet. -/
def baseStore : Store :=
  { weathers := [{ id := 1, name := some "mean", description := none }],
    climates := [{ id := 1, name := some "reference", description := none }],
    periods := [{ id := 1, name := some "P1", reference_year := some 2020,
                  period_start := some 2005, period_end := some 2035, description := none }],
    sensitivities := [], scenarios := [],
    clusters := [{ id := 3, name := some "X", geometry := none },
                 { id := 4, name := some "Y", geometry := none }],
    scalars := [], sequences := [],
    nextScenarioId := 1, nextScalarId := 1, nextSequenceId := 1 }

/-- The store a concurrent writer leaves behind after the advisory read
of get_or_create ran against baseStore: the logically identical scenario
(period 1, weather 1, climate 1, no sensitivity) is already there. -/
def racedStore : Store :=
  { baseStore with
    scenarios := [{ id := 1, name := some "other", period_id := some 1,
                    weather_id := some 1, climate_id := some 1, sensitivity_id := none }],
    nextScenarioId := 2 }

/-- baseStore with one persisted scenario of id 1. -/
def scenarioStore : Store :=
  { baseStore with
    scenarios := [{ id := 1, name := some "scenario_1", period_id := some 1,
                    weather_id := some 1, climate_id := some 1, sensitivity_id := none }],
    nextScenarioId := 2 }

/-- scenarioStore with one scalar row and one sequence row referencing
scenario 1 — the rows a cascade delete of scenario 1 should remove. -/
def c2Store : Store :=
  { scenarioStore with
    scalars := [{ id := 1, scenario_id := 1, is_exogenous := true, from_node := "a",
                  to_node := some "b", attr := "x", value := 5, cluster_id := none }],
    sequences := [{ id := 1, scenario_id := 1, is_exogenous := false, from_node := "a",
                    to_node := some "b", attr := "f", timeseries := [1, 2], total_energy := 3,
                    cluster_id := none }],
    nextScalarId := 2, nextSequenceId := 2 }

/-- A result entry carrying a single scalar measurement and no series. -/
def c3Entry : ResultEntry :=
  { from_node := "a", to_node := some "b",
    scalars := [("x", .num 5)], sequences := [] }

/-- Writing c3Entry for scenario 1 twice in a row. -/
def c3Run : Except AppError Store :=
  (store_scenario_results [] scenarioStore 1 [c3Entry] []).bind
    (fun s1 => store_scenario_results [] s1 1 [c3Entry] [])

/-- A result entry carrying one series with a missing value. -/
def c3SeqEntry : ResultEntry :=
  { from_node := "a", to_node := some "b", scalars := [],
    sequences := [("f", [some 1, none, some 2])] }

/-- A single-node result entry: no destination node, one series — the
persisted sequence key has a NULL to_node. -/
def c3NullSeqEntry : ResultEntry :=
  { from_node := "a", to_node := none, scalars := [],
    sequences := [("f", [some 1])] }

/-- Writing the NULL-destination series for scenario 1 twice in a row. -/
def c3NullRun : Except AppError Store :=
  (store_scenario_results [] scenarioStore 1 [c3NullSeqEntry] []).bind
    (fun s1 => store_scenario_results [] s1 1 [c3NullSeqEntry] [])

/-- A component→cluster configuration: "wind" maps to the persisted
cluster "X", "test" maps to a name absent from the cluster table. -/
def c8Config : ClusterConfig := [("wind", "X"), ("test", "non-existing")]

/-- A configuration mapping the source node "a" to cluster "Y" and the
destination node "b" to cluster "X", both persisted in baseStore. -/
def c4Config : ClusterConfig := [("a", "Y"), ("b", "X")]

/-- An a→b entry with one scalar and one series. -/
def c4Entry : ResultEntry :=
  { from_node := "a", to_node := some "b",
    scalars := [("x", .num 5)], sequences := [("f", [some 1, none])] }

/-! ## Supporting lemmas -/

theorem sumNonMissing_eq_sum_dropna (l : List (Option Rat)) :
    sumNonMissing l = (dropna l).sum := by
  induction l with
  | nil => simp [sumNonMissing, dropna]
  | cons hd tl ih =>
    cases hd with
    | none => simpa [sumNonMissing, dropna] using ih
    | some q => simp [sumNonMissing, dropna, ih, List.filterMap_cons]

theorem sequenceInsertError_none_key {s : Store} {d : SequenceData}
    (h : sequenceInsertError s d = none) : ∀ r ∈ s.sequences, ¬ seqKeyClash r d := by
  intro r hr hk
  have hany : s.sequences.any (fun r => decide (seqKeyClash r d)) = true :=
    List.any_eq_true.mpr ⟨r, hr, decide_eq_true hk⟩
  simp [sequenceInsertError, hany] at h

theorem insertSequence_ok {s : Store} {d : SequenceData} {s2 : Store}
    (h : insertSequence s d = .ok s2) :
    ∃ row, s2.sequences = s.sequences ++ [row] ∧ seqRowMatches row d ∧
      s2.scalars = s.scalars ∧ sequenceInsertError s d = none := by
  unfold insertSequence at h
  cases he : sequenceInsertError s d with
  | some e => rw [he] at h; cases h
  | none =>
    rw [he] at h
    cases h
    exact ⟨_, rfl, by simp [seqRowMatches], rfl, rfl⟩

theorem insertScalar_ok {s : Store} {d : ScalarData} {s2 : Store}
    (h : insertScalar s d = .ok s2) :
    ∃ row, s2.scalars = s.scalars ++ [row] ∧ scalarRowMatches row d ∧
      s2.sequences = s.sequences := by
  unfold insertScalar at h
  cases he : scalarInsertError s d with
  | some e => rw [he] at h; cases h
  | none =>
    rw [he] at h
    cases h
    exact ⟨_, rfl, by simp [scalarRowMatches], rfl⟩

theorem insertSequences_ok_mem {l : List SequenceData} {s s2 : Store}
    (h : insertSequences s l = .ok s2) :
    (∀ row ∈ s2.sequences, row ∈ s.sequences ∨ ∃ d ∈ l, seqRowMatches row d) ∧
      s2.scalars = s.scalars := by
  induction l generalizing s with
  | nil =>
    unfold insertSequences at h
    cases h
    exact ⟨fun row hrow => .inl hrow, rfl⟩
  | cons d rest ih =>
    unfold insertSequences at h
    cases hi : insertSequence s d with
    | error e => rw [hi] at h; cases h
    | ok s1 =>
      rw [hi] at h
      obtain ⟨row1, hseq1, hmatch1, hsc1, _⟩ := insertSequence_ok hi
      obtain ⟨hmem, hsc⟩ := ih h
      refine ⟨fun row hrow => ?_, hsc.trans hsc1⟩
      rcases hmem row hrow with hin | ⟨d2, hd2, hm2⟩
      · rw [hseq1] at hin
        rcases List.mem_append.mp hin with hin2 | hin2
        · exact .inl hin2
        · simp only [List.mem_singleton] at hin2
          exact .inr ⟨d, List.mem_cons_self d rest, hin2 ▸ hmatch1⟩
      · exact .inr ⟨d2, List.mem_cons_of_mem d hd2, hm2⟩

theorem insertScalars_ok_mem {l : List ScalarData} {s s2 : Store}
    (h : insertScalars s l = .ok s2) :
    (∀ row ∈ s2.scalars, row ∈ s.scalars ∨ ∃ d ∈ l, scalarRowMatches row d) ∧
      s2.sequences = s.sequences := by
  induction l generalizing s with
  | nil =>
    unfold insertScalars at h
    cases h
    exact ⟨fun row hrow => .inl hrow, rfl⟩
  | cons d rest ih =>
    unfold insertScalars at h
    cases hi : insertScalar s d with
    | error e => rw [hi] at h; cases h
    | ok s1 =>
      rw [hi] at h
      obtain ⟨row1, hsc1, hmatch1, hseq1⟩ := insertScalar_ok hi
      obtain ⟨hmem, hseq⟩ := ih h
      refine ⟨fun row hrow => ?_, hseq.trans hseq1⟩
      rcases hmem row hrow with hin | ⟨d2, hd2, hm2⟩
      · rw [hsc1] at hin
        rcases List.mem_append.mp hin with hin2 | hin2
        · exact .inl hin2
        · simp only [List.mem_singleton] at hin2
          exact .inr ⟨d, List.mem_cons_self d rest, hin2 ▸ hmatch1⟩
      · exact .inr ⟨d2, List.mem_cons_of_mem d hd2, hm2⟩

theorem insertSequence_seqUnique {s s2 : Store} {d : SequenceData}
    (hu : SeqUnique s) (h : insertSequence s d = .ok s2) : SeqUnique s2 := by
  obtain ⟨row, hseq, hmatch, -, herr⟩ := insertSequence_ok h
  obtain ⟨h1, h2, h3, h4, h5, h6, h7, h8⟩ := hmatch
  unfold SeqUnique
  rw [hseq]
  refine List.pairwise_append.mpr ⟨hu, List.pairwise_singleton _ _, ?_⟩
  intro a ha b hb
  simp only [List.mem_singleton] at hb
  subst hb
  intro hclash
  obtain ⟨hc1, hc2, hc3, hc4, hc5⟩ := hclash
  exact sequenceInsertError_none_key herr a ha
    ⟨hc1.trans h1, hc2.trans h3, hc3.trans h5, hc4, hc5.trans h4⟩

theorem insertSequences_seqUnique {l : List SequenceData} {s s2 : Store}
    (hu : SeqUnique s) (h : insertSequences s l = .ok s2) : SeqUnique s2 := by
  induction l generalizing s with
  | nil => unfold insertSequences at h; cases h; exact hu
  | cons d rest ih =>
    unfold insertSequences at h
    cases hi : insertSequence s d with
    | error e => rw [hi] at h; cases h
    | ok s1 =>
      rw [hi] at h
      exact ih (insertSequence_seqUnique hu hi) h

theorem scalarDataForEntry_cluster {sid : Nat} {exo : Bool} {cid : Option Nat}
    {e : ResultEntry} : ∀ d ∈ scalarDataForEntry sid exo cid e, d.cluster_id = cid := by
  intro d hd
  simp only [scalarDataForEntry, List.mem_filterMap] at hd
  obtain ⟨p, hp, hv⟩ := hd
  cases hf : PyValue.toFloat? p.2 with
  | none => rw [hf] at hv; cases hv
  | some v => rw [hf] at hv; cases hv; rfl

theorem sequenceDataForEntry_mem {sid : Nat} {exo : Bool} {cid : Option Nat}
    {e : ResultEntry} : ∀ d ∈ sequenceDataForEntry sid exo cid e,
      d.cluster_id = cid ∧ ∃ p ∈ e.sequences, d.attr = p.1 ∧
        d.timeseries = dropna p.2 ∧ d.total_energy = (dropna p.2).sum := by
  intro d hd
  simp only [sequenceDataForEntry, List.mem_map] at hd
  obtain ⟨p, hp, hv⟩ := hd
  cases hv
  exact ⟨rfl, p, hp, rfl, rfl, rfl⟩

theorem resolveClusterId_dest {config : ClusterConfig} {s : Store}
    {from_node to_label yname xname : String} {rowY rowX : ClusterRow}
    (hA : config.lookup from_node = some yname)
    (hB : config.lookup to_label = some xname)
    (hY : s.clusters.find? (fun c => decide (c.name = some yname)) = some rowY)
    (hX : s.clusters.find? (fun c => decide (c.name = some xname)) = some rowX) :
    resolveClusterId config s from_node (some to_label) = .ok (some rowX.id) := by
  simp [resolveClusterId, get_cluster_for_component, hA, hB, hY, hX]

theorem collectEntryData_single {config : ClusterConfig} {s : Store} {sid : Nat}
    {b : Bool} {e : ResultEntry} :
    collectEntryData config s sid [(b, e)] =
      match resolveClusterId config s e.from_node e.to_node with
      | .error err => .error err
      | .ok cid => .ok (scalarDataForEntry sid b cid e, sequenceDataForEntry sid b cid e) := by
  cases hr : resolveClusterId config s e.from_node e.to_node with
  | error err => simp [collectEntryData, hr]
  | ok cid => simp [collectEntryData, hr]

theorem store_scenario_results_single_ok {config : ClusterConfig} {s : Store}
    {sid : Nat} {b : Bool} {e : ResultEntry} {s2 : Store}
    (h : store_scenario_results config s sid (cond b [e] []) (cond b [] [e]) = .ok s2) :
    ∃ cid sMid, resolveClusterId config s e.from_node e.to_node = .ok cid ∧
      insertScalars s (scalarDataForEntry sid b cid e) = .ok sMid ∧
      insertSequences sMid (sequenceDataForEntry sid b cid e) = .ok s2 := by
  unfold store_scenario_results at h
  by_cases hex : s.scenarios.any (fun r => decide (r.id = sid)) = false
  · rw [if_pos hex] at h; cases h
  · rw [if_neg hex] at h
    have hentries : (cond b [e] []).map (fun e => (true, e)) ++
        (cond b [] [e]).map (fun e => (false, e)) = [(b, e)] := by
      cases b <;> simp
    rw [hentries] at h
    cases hr : resolveClusterId config s e.from_node e.to_node with
    | error err => simp only [collectEntryData_single, hr] at h; exact Except.noConfusion h
    | ok cid =>
      simp only [collectEntryData_single, hr] at h
      cases hsc : insertScalars s (scalarDataForEntry sid b cid e) with
      | error err => simp only [hsc] at h; exact Except.noConfusion h
      | ok sMid =>
        simp only [hsc] at h
        cases hsq : insertSequences sMid (sequenceDataForEntry sid b cid e) with
        | error err => simp only [hsq] at h; exact Except.noConfusion h
        | ok s3 =>
          simp only [hsq, Except.ok.injEq] at h
          exact ⟨cid, sMid, rfl, hsc, by rw [hsq, h]⟩

theorem store_scenario_results_ok_shape {config : ClusterConfig} {s : Store}
    {sid : Nat} {input output : List ResultEntry} {s2 : Store}
    (h : store_scenario_results config s sid input output = .ok s2) :
    ∃ scalarBatch sequenceBatch sMid,
      insertScalars s scalarBatch = .ok sMid ∧
      insertSequences sMid sequenceBatch = .ok s2 := by
  unfold store_scenario_results at h
  by_cases hex : s.scenarios.any (fun r => decide (r.id = sid)) = false
  · rw [if_pos hex] at h; cases h
  · rw [if_neg hex] at h
    cases hc : collectEntryData config s sid
        (input.map (fun e => (true, e)) ++ output.map (fun e => (false, e))) with
    | error err => simp only [hc] at h; exact Except.noConfusion h
    | ok batches =>
      obtain ⟨scalarBatch, sequenceBatch⟩ := batches
      simp only [hc] at h
      cases hsc : insertScalars s scalarBatch with
      | error err => simp only [hsc] at h; exact Except.noConfusion h
      | ok sMid =>
        simp only [hsc] at h
        cases hsq : insertSequences sMid sequenceBatch with
        | error err => simp only [hsq] at h; exact Except.noConfusion h
        | ok s3 =>
          simp only [hsq, Except.ok.injEq] at h
          exact ⟨scalarBatch, sequenceBatch, sMid, hsc, by rw [hsq, h]⟩

/-- Claim C3, amended: after any sequence of store_scenario_results
calls the persisted store contains at most one Sequence row per
(scenario_id, from_node, to_node, attribute) key with a non-NULL
to_node — a second sequence write colliding on such a key is rejected
by the unique index sequence_unique and the batch rolls back, so the
invariant is preserved by every call.  NULL to_node values are distinct
under the index, so NULL-destination sequence keys — like all Scalar
keys, which carry no unique constraint at all — can be silently
duplicated; see the counterexample for both. -/
theorem c3_sequence_uniqueness_preserved (config : ClusterConfig) (s : Store)
    (sid : Nat) (input output : List ResultEntry) (hu : SeqUnique s) :
    resultSeqUnique (store_scenario_results config s sid input output) := by
  intro s2 h
  obtain ⟨scalarBatch, sequenceBatch, sMid, hsc, hsq⟩ := store_scenario_results_ok_shape h
  obtain ⟨-, hseqEq⟩ := insertScalars_ok_mem hsc
  have huMid : SeqUnique sMid := by
    unfold SeqUnique
    rw [hseqEq]
    exact hu
  exact insertSequences_seqUnique huMid hsq

/-- Witness for C3: a concrete store satisfying the invariant, and the
amended theorem applied to a concrete call writing one series. -/
theorem c3_witness_check :
    SeqUnique scenarioStore ∧
      resultSeqUnique (store_scenario_results [] scenarioStore 1 [c3SeqEntry] []) :=
  ⟨List.Pairwise.nil,
    c3_sequence_uniqueness_preserved [] scenarioStore 1 [c3SeqEntry] [] List.Pairwise.nil⟩

/-- Claim C4: for a result-bundle entry from node A to node B where
both labels are mapped in the cluster configuration and both mapped
names resolve to persisted clusters (A to Y, B to X), every scalar and
sequence row the call persists for the entry carries the destination
cluster X — the destination resolution overwrites the source. -/
theorem c4_destination_cluster_wins (config : ClusterConfig) (s : Store)
    (scenario_id : Nat) (entry : ResultEntry) (exo : Bool)
    (to_label yname xname : String) (rowY rowX : ClusterRow)
    (hto : entry.to_node = some to_label)
    (hA : config.lookup entry.from_node = some yname)
    (hB : config.lookup to_label = some xname)
    (hY : s.clusters.find? (fun c => decide (c.name = some yname)) = some rowY)
    (hX : s.clusters.find? (fun c => decide (c.name = some xname)) = some rowX) :
    newRowsCarry (store_scenario_results config s scenario_id
      (cond exo [entry] []) (cond exo [] [entry])) s (some rowX.id) := by
  intro s2 h
  obtain ⟨cid, sMid, hres, hsc, hsq⟩ := store_scenario_results_single_ok h
  have hres2 : resolveClusterId config s entry.from_node entry.to_node = .ok (some rowX.id) := by
    rw [hto]
    exact resolveClusterId_dest hA hB hY hX
  rw [hres2] at hres
  have hcid : cid = some rowX.id := (Except.ok.injEq _ _).mp hres.symm
  subst hcid
  obtain ⟨hscMem, hseqEq⟩ := insertScalars_ok_mem hsc
  obtain ⟨hsqMem, hscalEq⟩ := insertSequences_ok_mem hsq
  constructor
  · intro row hrow
    rw [hscalEq] at hrow
    rcases hscMem row hrow with hin | ⟨d, hd, hm⟩
    · exact .inl hin
    · right
      obtain ⟨-, -, -, -, -, -, hcl⟩ := hm
      rw [hcl, scalarDataForEntry_cluster d hd]
  · intro row hrow
    rcases hsqMem row hrow with hin | ⟨d, hd, hm⟩
    · rw [hseqEq] at hin
      exact .inl hin
    · right
      obtain ⟨hcl, -⟩ := sequenceDataForEntry_mem d hd
      obtain ⟨-, -, -, -, -, -, -, hcl2⟩ := hm
      rw [hcl2, hcl]

/-- Witness for C4: a→Y, b→X against concrete clusters; the rows the
concrete call adds all carry cluster id 3 (cluster X). -/
theorem c4_witness_check :
    c4Entry.to_node = some "b" ∧
    c4Config.lookup c4Entry.from_node = some "Y" ∧
    c4Config.lookup "b" = some "X" ∧
    scenarioStore.clusters.find? (fun c => decide (c.name = some "Y")) =
      some { id := 4, name := some "Y", geometry := none } ∧
    scenarioStore.clusters.find? (fun c => decide (c.name = some "X")) =
      some { id := 3, name := some "X", geometry := none } ∧
    newRowsCarry (store_scenario_results c4Config scenarioStore 1
      (cond true [c4Entry] []) (cond true [] [c4Entry])) scenarioStore (some 3) :=
  ⟨rfl, rfl, rfl, by decide, by decide,
    c4_destination_cluster_wins c4Config scenarioStore 1 c4Entry true "b" "Y" "X"
      { id := 4, name := some "Y", geometry := none }
      { id := 3, name := some "X", geometry := none }
      rfl rfl rfl (by decide) (by decide)⟩

/-- Claim C5: every sequence row a store_scenario_results call persists
stores its input series with the missing entries removed, and its
total_energy equals the sum of exactly the non-missing entries, so the
stored total and stored series are consistent with each other. -/
theorem c5_sequence_total_consistent (config : ClusterConfig) (s : Store)
    (scenario_id : Nat) (entry : ResultEntry) (exo : Bool) :
    seqRowsConsistent (store_scenario_results config s scenario_id
      (cond exo [entry] []) (cond exo [] [entry])) s entry := by
  intro s2 h row hrow
  obtain ⟨cid, sMid, hres, hsc, hsq⟩ := store_scenario_results_single_ok h
  obtain ⟨-, hseqEq⟩ := insertScalars_ok_mem hsc
  obtain ⟨hsqMem, -⟩ := insertSequences_ok_mem hsq
  rcases hsqMem row hrow with hin | ⟨d, hd, hm⟩
  · rw [hseqEq] at hin
    exact .inl hin
  · right
    obtain ⟨-, p, hp, hattr, hts, htot⟩ := sequenceDataForEntry_mem d hd
    obtain ⟨-, -, -, -, hattr2, hts2, htot2, -⟩ := hm
    refine ⟨p, hp, by rw [hattr2, hattr], by rw [hts2, hts], ?_, ?_⟩
    · rw [htot2, htot, sumNonMissing_eq_sum_dropna]
    · rw [htot2, htot, hts2, hts]

/-- Claim C6: store_scenario_results against a scenario id absent from
the store fails with the scenario-not-found ValueError, for every input,
before any row is written — the error result carries no successor store,
so the persisted state is untouched. -/
theorem c6_scenario_not_found (config : ClusterConfig) (s : Store) (sid : Nat)
    (input output : List ResultEntry)
    (h : sid ∉ s.scenarios.map (fun r => r.id)) :
    store_scenario_results config s sid input output =
      .error (.valueError (scenarioNotFoundMsg sid)) := by
  have hany : s.scenarios.any (fun r => decide (r.id = sid)) = false := by
    rw [List.any_eq_false]
    intro r hr
    simp only [decide_eq_true_eq]
    intro heq
    exact h (List.mem_map.mpr ⟨r, hr, heq⟩)
  unfold store_scenario_results
  rw [if_pos hany]

/-- Witness for C6: scenario 5 does not exist in baseStore and the call
fails with the scenario-not-found error. -/
theorem c6_witness_check :
    (5 ∉ baseStore.scenarios.map (fun r => r.id)) ∧
      store_scenario_results [] baseStore 5 [] [] =
        .error (.valueError (scenarioNotFoundMsg 5)) :=
  ⟨by decide, c6_scenario_not_found [] baseStore 5 [] [] (by decide)⟩

/-- Claim C10: when the period name has no row while climate and
weather resolve, create_scenario raises no KeyError for the period — the
None period id is passed unchecked into get_or_create, so the outcome is
exactly get_or_create's, with any database violation surfacing as
IntegrityError rather than an application-level period check. -/
theorem c10_period_unchecked (s : Store) (period climate weather : String)
    (sensitivity_id : Option Nat) (cid wid : Nat)
    (hp : findPeriodId s period = none)
    (hc : findClimateId s climate = some cid)
    (hw : findWeatherId s weather = some wid) :
    create_scenario s s period climate weather sensitivity_id =
      Except.mapError AppError.integrityError (get_or_create s s none wid cid sensitivity_id) ∧
    resultIsKeyError (create_scenario s s period climate weather sensitivity_id) = false := by
  have hmain : create_scenario s s period climate weather sensitivity_id =
      Except.mapError AppError.integrityError (get_or_create s s none wid cid sensitivity_id) := by
    cases hgoc : get_or_create s s none wid cid sensitivity_id with
    | error e => simp [create_scenario, hp, hc, hw, hgoc, Except.mapError]
    | ok r => simp [create_scenario, hp, hc, hw, hgoc, Except.mapError]
  refine ⟨hmain, ?_⟩
  rw [hmain]
  cases hgoc : get_or_create s s none wid cid sensitivity_id with
  | error e => simp [hgoc, Except.mapError, resultIsKeyError]
  | ok r => simp [hgoc, Except.mapError, resultIsKeyError]

/-- Witness for C10: period "P9" is absent from baseStore while
climate and weather resolve; the call reduces to get_or_create and is no
KeyError. -/
theorem c10_witness_check :
    findPeriodId baseStore "P9" = none ∧
    findClimateId baseStore "reference" = some 1 ∧
    findWeatherId baseStore "mean" = some 1 ∧
    (create_scenario baseStore baseStore "P9" "reference" "mean" none =
      Except.mapError AppError.integrityError (get_or_create baseStore baseStore none 1 1 none) ∧
     resultIsKeyError (create_scenario baseStore baseStore "P9" "reference" "mean" none) = false) :=
  ⟨by decide, by decide, by decide,
    c10_period_unchecked baseStore "P9" "reference" "mean" none 1 1
      (by decide) (by decide) (by decide)⟩

/-- Claim C8: get_cluster_for_component satisfies the three-way
contract — an unmapped component yields None and never raises; a mapped
component whose cluster name is persisted yields that cluster's id; a
mapped component whose cluster name is absent fails with a KeyError
whose message contains both the component and the cluster name. -/
theorem c8_cluster_lookup_contract (config : ClusterConfig) (s : Store) :
    (∀ component, config.lookup component = none →
      get_cluster_for_component config s component = .ok none) ∧
    (∀ component cluster_name row, config.lookup component = some cluster_name →
      s.clusters.find? (fun c => decide (c.name = some cluster_name)) = some row →
      get_cluster_for_component config s component = .ok (some row.id)) ∧
    (∀ component cluster_name, config.lookup component = some cluster_name →
      s.clusters.find? (fun c => decide (c.name = some cluster_name)) = none →
      get_cluster_for_component config s component =
        .error (.keyError (clusterNotFoundMsg component cluster_name)) ∧
      component.data <:+: (clusterNotFoundMsg component cluster_name).data ∧
      cluster_name.data <:+: (clusterNotFoundMsg component cluster_name).data) := by
  refine ⟨?_, ?_, ?_⟩
  · intro component hnone
    simp [get_cluster_for_component, hnone]
  · intro component cluster_name row hsome hfind
    simp [get_cluster_for_component, hsome, hfind]
  · intro component cluster_name hsome hfind
    refine ⟨by simp [get_cluster_for_component, hsome, hfind], ?_, ?_⟩
    · refine ⟨("Cluster \x27" ++ cluster_name ++ "\x27 for component \x27").data,
        "\x27 not found in database.".data, ?_⟩
      simp [clusterNotFoundMsg, String.data_append]
    · refine ⟨"Cluster \x27".data,
        ("\x27 for component \x27" ++ component ++ "\x27 not found in database.").data, ?_⟩
      simp [clusterNotFoundMsg, String.data_append]

/-- Witness for C8: all three branches of the contract at concrete
inputs ("unknown" unmapped, "wind"→"X" persisted as id 3,
"test"→"non-existing" absent from the cluster table). -/
theorem c8_witness_check :
    get_cluster_for_component c8Config baseStore "unknown" = .ok none ∧
    get_cluster_for_component c8Config baseStore "wind" = .ok (some 3) ∧
    (get_cluster_for_component c8Config baseStore "test" =
        .error (.keyError (clusterNotFoundMsg "test" "non-existing")) ∧
      "test".data <:+: (clusterNotFoundMsg "test" "non-existing").data ∧
      "non-existing".data <:+: (clusterNotFoundMsg "test" "non-existing").data) :=
  ⟨(c8_cluster_lookup_contract c8Config baseStore).1 "unknown" (by decide),
   (c8_cluster_lookup_contract c8Config baseStore).2.1 "wind" "X"
     { id := 3, name := some "X", geometry := none } (by decide) (by decide),
   (c8_cluster_lookup_contract c8Config baseStore).2.2 "test" "non-existing"
     (by decide) (by decide)⟩

theorem find?_filter_ne (vs : MatViews) (m n : String) (hnm : n ≠ m) :
    (vs.filter (fun p => decide (p.1 ≠ m))).find? (fun p => decide (p.1 = n)) =
      vs.find? (fun p => decide (p.1 = n)) := by
  rw [List.find?_filter]
  congr 1
  funext a
  by_cases h2 : a.1 = n
  · simp [h2, hnm]
  · simp [h2]

theorem create_view_recreate (vs : MatViews) (n q : String) :
    create_view vs n q true = .ok (createViewPure vs n q) := by
  unfold create_view dropMaterializedView createMaterializedView createViewPure
  by_cases h : vs.any (fun p => decide (p.1 = n)) = true
  · have hf : (vs.filter (fun p => decide (p.1 ≠ n))).any (fun p => decide (p.1 = n)) = false := by
      rw [List.any_eq_false]
      intro p hp
      have hne := (List.mem_filter.mp hp).2
      simp at hne ⊢
      exact hne
    simp [h, hf]
  · have hf2 : vs.filter (fun p => !decide (p.1 = n)) = vs := by
      rw [List.filter_eq_self]
      intro p hp
      simp only [Bool.not_eq_eq_eq_not, Bool.not_true, decide_eq_false_iff_not]
      intro heq
      exact h (List.any_eq_true.mpr ⟨p, hp, by simp [heq]⟩)
    simp [h, hf2]

theorem create_all_views_recreate (defs : List (String × String)) (vs : MatViews) :
    create_all_views vs defs true = .ok (applyViewsPure vs defs) := by
  induction defs generalizing vs with
  | nil => rfl
  | cons d rest ih =>
    obtain ⟨n, q⟩ := d
    unfold create_all_views
    rw [create_view_recreate]
    exact ih (createViewPure vs n q)

theorem lookup_createViewPure (vs : MatViews) (m q n : String) :
    lookupView (createViewPure vs m q) n = if n = m then some q else lookupView vs n := by
  unfold lookupView createViewPure
  by_cases hnm : n = m
  · subst hnm
    have hnone : (vs.filter (fun p => decide (p.1 ≠ n))).find? (fun p => decide (p.1 = n)) = none := by
      rw [List.find?_eq_none]
      intro p hp
      have hne := (List.mem_filter.mp hp).2
      simp at hne ⊢
      exact hne
    rw [List.find?_append, hnone]
    simp
  · rw [List.find?_append, find?_filter_ne vs m n hnm]
    have hmn : ¬(m = n) := fun hh => hnm hh.symm
    cases hf : vs.find? (fun p => decide (p.1 = n)) with
    | some p => simp [hnm]
    | none => simp [hnm, hmn, List.find?_cons, hf]

theorem lookup_applyViewsPure (defs : List (String × String)) (vs : MatViews) (n : String) :
    lookupView (applyViewsPure vs defs) n =
      match resolveViews defs n with
      | some q => some q
      | none => lookupView vs n := by
  induction defs generalizing vs with
  | nil => rfl
  | cons d rest ih =>
    obtain ⟨m, q⟩ := d
    show lookupView (applyViewsPure (createViewPure vs m q) rest) n = _
    rw [ih]
    cases hres : resolveViews rest n with
    | some q2 => simp [resolveViews, hres]
    | none =>
      simp only [resolveViews, hres]
      rw [lookup_createViewPure]
      by_cases hnm : n = m
      · subst hnm
        simp
      · have hmn : ¬(m = n) := fun hh => hnm hh.symm
        simp [hnm, hmn]

/-- Claim C9: create_all_views with recreate=true is idempotent on the
view layer — both applications succeed (the second never errors on the
state the first left, because the drop is IF EXISTS and the create is IF
NOT EXISTS), and the observable view-set state (which named views exist,
with which defining query) is the same after both. -/
theorem c9_refresh_all_idempotent (defs : List (String × String)) (vs : MatViews) :
    ∃ vs1 vs2, create_all_views vs defs true = .ok vs1 ∧
      create_all_views vs1 defs true = .ok vs2 ∧
      ∀ n, lookupView vs2 n = lookupView vs1 n := by
  refine ⟨applyViewsPure vs defs, applyViewsPure (applyViewsPure vs defs) defs,
    create_all_views_recreate defs vs,
    create_all_views_recreate defs (applyViewsPure vs defs), ?_⟩
  intro n
  rw [lookup_applyViewsPure, lookup_applyViewsPure]
  cases resolveViews defs n <;> simp

/-- Claim C1, code evaluation at the failing input: the advisory read
of get_or_create sees no matching scenario, a concurrent writer has
already persisted the logically identical scenario by the time the
insert runs, and instead of re-reading and returning (existing id,
created=false) the call escalates the commit's IntegrityError — the
source wraps no exception handler around the insert.  The last conjunct
shows the partial unique index itself firing on that collision for a
fully-populated row. -/
theorem c1_race_escalates_integrity_error :
    filterByScenario baseStore (some 1) 1 1 none = none ∧
    filterByScenario racedStore (some 1) 1 1 none =
      some { id := 1, name := some "other", period_id := some 1, weather_id := some 1,
             climate_id := some 1, sensitivity_id := none } ∧
    get_or_create baseStore racedStore (some 1) 1 1 none =
      .error (.notNullViolation "scenario" "name") ∧
    scenarioInsertError racedStore
      { id := 2, name := some "scenario_2", period_id := some 1, weather_id := some 1,
        climate_id := some 1, sensitivity_id := none } =
      some (.uniqueViolation "scenario_without_sensitivity") := by decide

/-- Claim C2, code evaluation at the failing input: delete_scenario
returns with the store unchanged — the scenario row and the scalar and
sequence rows referencing it are still persisted — because the session
closes without a commit and the delete is rolled back.  The final
conjuncts show that the same session with a commit would have removed
the scenario and, through the cascade, both referencing rows. -/
theorem c2_delete_scenario_rolled_back :
    delete_scenario c2Store 1 = .ok c2Store ∧
    c2Store.scenarios.map (fun r => r.id) = [1] ∧
    c2Store.scalars.map (fun r => r.scenario_id) = [1] ∧
    c2Store.sequences.map (fun r => r.scenario_id) = [1] ∧
    (DbSession.close (DbSession.commit ((openSession c2Store).deleteScenarioRow 1))).scenarios = [] ∧
    (DbSession.close (DbSession.commit ((openSession c2Store).deleteScenarioRow 1))).scalars = [] ∧
    (DbSession.close (DbSession.commit ((openSession c2Store).deleteScenarioRow 1))).sequences = [] := by
  decide

/-- Claim C7, code evaluation at the failing input: with period,
climate and weather all resolving and no scenario persisted yet, the
first create_scenario call does not return created=true — it raises
IntegrityError, because get_or_create constructs the Scenario without
the NOT NULL `name` column, so the create path can never insert. -/
theorem c7_create_path_always_fails :
    findPeriodId baseStore "P1" = some 1 ∧
    findClimateId baseStore "reference" = some 1 ∧
    findWeatherId baseStore "mean" = some 1 ∧
    filterByScenario baseStore (some 1) 1 1 none = none ∧
    create_scenario baseStore baseStore "P1" "reference" "mean" none =
      .error (.integrityError (.notNullViolation "scenario" "name")) := by decide

/-- Counterexample to C3 as stated: writing the same scalar key for
scenario 1 twice succeeds both times and leaves two Scalar rows with the
identical (scenario_id, from_node, to_node, attribute) tuple — the
second write is not rejected, because models.Scalar declares no unique
constraint.  The second conjunct shows the sequence-side boundary of the
amended claim: a second write of a NULL-destination sequence key also
succeeds and duplicates, because the plain unique index treats NULL
to_node values as distinct. -/
theorem c3_counterexample_duplicate_scalars :
    (c3Run.toOption.map (fun s2 => (s2.scalars.filter (fun r =>
      decide (r.scenario_id = 1 ∧ r.from_node = "a" ∧ r.to_node = some "b" ∧
        r.attr = "x"))).length)) = some 2 ∧
    (c3NullRun.toOption.map (fun s2 => (s2.sequences.filter (fun r =>
      decide (r.scenario_id = 1 ∧ r.from_node = "a" ∧ r.to_node = none ∧
        r.attr = "f"))).length)) = some 2 := by decide

end Resq
